import Mathlib

/-!
Shallow embedding of the analysis/aggregation core of the dream-journal
application (`dream_journal_streamlit.py`, class `DreamJournal`).

External collaborators (the Streamlit UI, the JSON file store, matplotlib
charts, and the TextBlob polarity scorer) are out of scope per the spec:
the polarity scorer is modelled as an `Option ℚ` input (`none` = the scorer
raised), timestamps are passed in as strings, and persistence is the
in-memory record list itself.  Python floats are modelled as exact
rationals `ℚ`; the numeric claims decided here do not hit values where
float rounding and exact arithmetic disagree on a threshold comparison.
-/

/-- A dream record, mirroring the dict built in `save_dream`
(fields `id, date, title, description, emotion, lucid, tags,
sleep_quality, sentiment`).  Records built by the app always carry every
field, so the Python `dream.get(k, default)` accesses are plain field
reads here. -/
structure Dream where
  id : Nat
  date : String
  title : String
  description : String
  emotion : String
  lucid : Bool
  tags : List String
  sleep_quality : Int
  sentiment : String
deriving DecidableEq, Repr

/-- `analyze_sentiment`: the TextBlob call is external; its outcome is the
`polarity` argument (`none` when the scorer raised, caught by the bare
`except`).  Thresholds from lines 59-64: `p > 0.1` positive, `p < -0.1`
negative, else neutral. -/
def analyze_sentiment (polarity : Option ℚ) : String :=
  match polarity with
  | none => "neutral"
  | some p =>
    if p > 1/10 then "positive"
    else if p < -(1/10) then "negative"
    else "neutral"

/-- `lucid_percentage` (line 119):
`sum(1 for dream in dreams if dream.get('lucid', False)) / len(dreams) * 100`. -/
def lucid_percentage (ds : List Dream) : ℚ :=
  (ds.countP (fun d => d.lucid) : ℚ) / (ds.length : ℚ) * 100

/-- `avg_quality` (line 126) and `avg_sleep_quality` (line 150) — the same
formula: `sum(dream.get('sleep_quality', 0) for dream in dreams) / len(dreams)`. -/
def avg_sleep_quality (ds : List Dream) : ℚ :=
  (((ds.map (fun d => d.sleep_quality)).sum : ℤ) : ℚ) / (ds.length : ℚ)

/-- `positive_ratio` (line 134):
`sentiments.count('positive') / len(sentiments) * 100`. -/
def positive_pct (ds : List Dream) : ℚ :=
  ((ds.map (fun d => d.sentiment)).count "positive" : ℚ) / (ds.length : ℚ) * 100

/-- Message of line 121 (high lucid rate). -/
def msgLucidHigh : String :=
  "• You have a high rate of lucid dreaming! This suggests good dream awareness."

/-- Message of line 123 (suggest lucid practice). -/
def msgLucidLow : String :=
  "• Consider practicing lucid dreaming techniques to increase awareness."

/-- Message of line 128 (sleep hygiene suggestion). -/
def msgQualityLow : String :=
  "• Your sleep quality could be improved. Consider sleep hygiene practices."

/-- Message of line 130 (good sleep habits). -/
def msgQualityHigh : String :=
  "• You maintain good sleep quality! Keep up the healthy habits."

/-- Message of line 136 (positive dreams). -/
def msgPositive : String :=
  "• Your dreams tend to be positive! This may reflect good mental wellbeing."

/-- Message of line 138 (suggest positive activities). -/
def msgNegative : String :=
  "• Consider activities that promote positive thoughts before bed."

/-- The `insights` list built by `generate_insights` (lines 116-138): the
lucidity `if/elif`, then the sleep-quality `if/elif`, then the sentiment
`if/elif`, each appending at most one message. -/
def insightList (ds : List Dream) : List String :=
  (if lucid_percentage ds > 20 then [msgLucidHigh]
   else if lucid_percentage ds < 5 then [msgLucidLow]
   else [])
  ++ (if avg_sleep_quality ds < 5 then [msgQualityLow]
   else if avg_sleep_quality ds > 7 then [msgQualityHigh]
   else [])
  ++ (if positive_pct ds > 60 then [msgPositive]
   else if positive_pct ds < 30 then [msgNegative]
   else [])

/-- `generate_insights` (lines 111-140): empty journal short-circuits to
the not-enough-data message; otherwise the rule messages joined with
newlines, or the fallback when no rule fired. -/
def generate_insights (ds : List Dream) : String :=
  if ds = [] then "Not enough data for insights."
  else if insightList ds = [] then "Keep recording dreams to unlock more insights!"
  else String.intercalate "\n" (insightList ds)

/-- One step of Python's `Counter` construction: increment the count of
`t`, keeping first-seen key order (a new key goes to the end, as dict
insertion order does). -/
def bump [DecidableEq α] (t : α) : List (α × Nat) → List (α × Nat)
  | [] => [(t, 1)]
  | (s, n) :: l => if s = t then (s, n + 1) :: l else (s, n) :: bump t l

/-- `collections.Counter(xs)` as an association list in first-seen key
order. -/
def counterOf [DecidableEq α] (xs : List α) : List (α × Nat) :=
  xs.foldl (fun acc t => bump t acc) []

/-- Count stored for key `t` in an association list (0 when absent). -/
def countValue [DecidableEq α] (t : α) : List (α × Nat) → Nat
  | [] => 0
  | (s, n) :: l => if s = t then n else countValue t l

/-- `Counter.most_common(k)`: count-descending stable sort of the entries
(ties keep first-seen order, as `heapq.nlargest` does), then the first
`k`.  A stable sort by one key is unique, so insertion sort models
CPython's sort exactly. -/
def most_common [DecidableEq α] (k : Nat) (c : List (α × Nat)) : List (α × Nat) :=
  (c.insertionSort (fun a b => b.2 ≤ a.2)).take k

/-- `all_tags` (lines 162-164): the concatenation of every record's tag
list, in record order, with no deduplication. -/
def all_tags (ds : List Dream) : List String :=
  (ds.map (fun d => d.tags)).flatten

/-- `tag_counts` (line 165): `Counter(all_tags)`. -/
def tag_counts (ds : List Dream) : List (String × Nat) :=
  counterOf (all_tags ds)

/-- `common_tags` (line 166): `tag_counts.most_common(5)`. -/
def common_tags (ds : List Dream) : List (String × Nat) :=
  most_common 5 (tag_counts ds)

/-- A `\w` word character of the `\b\w+\b` token regex (ASCII model). -/
def isWordChar (c : Char) : Bool := c.isAlphanum || c = '_'

/-- Maximal runs of word characters, modelling
`re.findall(r'\b\w+\b', text)`; `cur` is the current run, reversed. -/
def tokenizeAux : List Char → List Char → List String
  | [], cur => if cur.isEmpty then [] else [String.mk cur.reverse]
  | c :: rest, cur =>
    if isWordChar c then tokenizeAux rest (c :: cur)
    else if cur.isEmpty then tokenizeAux rest []
    else String.mk cur.reverse :: tokenizeAux rest []

/-- ASCII lowercasing, modelling `str.lower()` on the app's text. -/
def lowerStr (s : String) : String := String.mk (s.data.map Char.toLower)

/-- `words` (lines 172-173): all descriptions joined with spaces,
lowercased, tokenized on `\b\w+\b`. -/
def journalWords (ds : List Dream) : List String :=
  tokenizeAux (lowerStr (String.intercalate " " (ds.map (fun d => d.description)))).data []

/-- `recent_dreams` (line 169): `sorted(dreams, key=date, reverse=True)[:5]`
— stable descending sort on the timestamp string of a fresh list. -/
def recent_dreams (ds : List Dream) : List Dream :=
  (ds.insertionSort (fun a b => b.date ≤ a.date)).take 5

/-- The statistics bundle computed by `get_analysis` (lines 147-174)
before it is interpolated into the report text. -/
structure Analysis where
  total_dreams : Nat
  lucid_dreams : Nat
  avg_quality : ℚ
  emotion_counts : List (String × Nat)
  positive_count : Nat
  negative_count : Nat
  neutral_count : Nat
  common_tag_list : List (String × Nat)
  common_words : List (String × Nat)
  recent : List Dream
  insights : String
deriving DecidableEq, Repr

/-- `get_analysis` (lines 142-209): the empty journal returns the
no-data message before any statistic (in particular any ratio over the
record count) is computed; otherwise the statistics bundle that the
report string interpolates. -/
def get_analysis (ds : List Dream) : Except String Analysis :=
  if ds = [] then Except.error "No dreams recorded yet. Start by adding some dreams!"
  else Except.ok
    { total_dreams := ds.length
      lucid_dreams := ds.countP (fun d => d.lucid)
      avg_quality := avg_sleep_quality ds
      emotion_counts := counterOf (ds.map (fun d => d.emotion))
      positive_count := countValue "positive" (counterOf (ds.map (fun d => d.sentiment)))
      negative_count := countValue "negative" (counterOf (ds.map (fun d => d.sentiment)))
      neutral_count := countValue "neutral" (counterOf (ds.map (fun d => d.sentiment)))
      common_tag_list := common_tags ds
      common_words := most_common 10 (counterOf (journalWords ds))
      recent := recent_dreams ds
      insights := generate_insights ds }

/-- `needle` is a prefix of the haystack (character-list model). -/
def prefixCh : List Char → List Char → Bool
  | [], _ => true
  | _ :: _, [] => false
  | a :: as, b :: bs => a == b && prefixCh as bs

/-- Python's substring operator `needle in hay` on character lists. -/
def subCh (needle : List Char) : List Char → Bool
  | [] => needle.isEmpty
  | hay@(_ :: t) => prefixCh needle hay || subCh needle t

/-- The match test of the `search_dreams` loop (lines 348-350), with `q`
already lowercased: query in lowercased title, or in lowercased
description, or in some lowercased tag. -/
def matchesQuery (q : String) (d : Dream) : Bool :=
  subCh q.data (lowerStr d.title).data ||
  subCh q.data (lowerStr d.description).data ||
  d.tags.any (fun tag => subCh q.data (lowerStr tag).data)

/-- `search_dreams` (lines 339-353): `if not query: return []` (only the
empty string is falsy), then lowercase the query once and append each
matching record to `results` in collection order. -/
def search_dreams (query : String) (ds : List Dream) : List Dream :=
  if query = "" then []
  else ds.foldl
    (fun results d => if matchesQuery (lowerStr query) d then results ++ [d] else results) []

/-- Python's `str.strip()`: drop leading and trailing whitespace
(structural model over the character list). -/
def pyStrip (s : String) : String :=
  String.mk (((s.data.dropWhile Char.isWhitespace).reverse.dropWhile Char.isWhitespace).reverse)

/-- Helper for `str.split(',')`: `cur` is the current fragment, reversed. -/
def commaSplitAux : List Char → List Char → List String
  | [], cur => [String.mk cur.reverse]
  | c :: rest, cur =>
    if c = ',' then String.mk cur.reverse :: commaSplitAux rest []
    else commaSplitAux rest (c :: cur)

/-- Python's `str.split(',')`: fragments between commas, empties kept. -/
def commaSplit (s : String) : List String := commaSplitAux s.data []

/-- Tag parsing in `save_dream` (line 87):
`[tag.strip() for tag in tags.split(',') if tag.strip()]` — each fragment
stripped, and dropped when the stripped fragment is empty. -/
def mkTags (tags : String) : List String :=
  ((commaSplit tags).map pyStrip).filter (fun t => ¬ t = "")

/-- Outcome of `save_dream`: the returned bool, the `st.error` message if
one was shown, and the (possibly extended) record collection. -/
structure SaveOutcome where
  ok : Bool
  errMsg : Option String
  dreams : List Dream
deriving DecidableEq, Repr

/-- `save_dream` (lines 68-99).  `now` is the creation timestamp and
`polarity` the external scorer's outcome on the stripped description
(both external collaborators).  Validation rejects a blank title, then a
blank description, each without touching the collection; otherwise the
new record is stamped (`id = len + 1`), appended and persisted. -/
def save_dream (now title description emotion : String) (lucid : Bool)
    (tags : String) (sleep_quality : Int) (polarity : Option ℚ)
    (ds : List Dream) : SaveOutcome :=
  if pyStrip title = "" then
    { ok := false, errMsg := some "Please enter a dream title", dreams := ds }
  else if pyStrip description = "" then
    { ok := false, errMsg := some "Please enter a dream description", dreams := ds }
  else
    { ok := true
      errMsg := none
      dreams := ds ++ [{
        id := ds.length + 1
        date := now
        title := pyStrip title
        description := pyStrip description
        emotion := emotion
        lucid := lucid
        tags := mkTags tags
        sleep_quality := sleep_quality
        sentiment := analyze_sentiment polarity }] }

/-- Python's `f"{x:.1f}"` on the report's nonnegative statistics: round
`10·x` to the nearest integer and print one decimal digit.  (CPython
rounds exact ties to even; no statistic decided here is an exact tie, so
`round`, which is half-up, agrees on every input used.) -/
def fmt1 (q : ℚ) : String :=
  toString (round (q * 10) / 10) ++ "." ++ toString ((round (q * 10)) % 10).natAbs

/-- The report line `• Average Sleep Quality: {avg_sleep_quality:.1f}/10`
(line 184). -/
def avgQualityLine (ds : List Dream) : String :=
  "• Average Sleep Quality: " ++ fmt1 (avg_sleep_quality ds) ++ "/10"

/-- The mutable session state the `DreamJournal` methods close over:
`self.dreams`. -/
structure JournalState where
  dreams : List Dream
deriving DecidableEq, Repr

/-- `get_analysis` as a state transformer: the method reads `self.dreams`
(its sort uses `sorted(...)`, which builds a fresh list) and assigns
nothing, so the translated state update is the identity. -/
def get_analysis_run (s : JournalState) : JournalState × Except String Analysis :=
  (s, get_analysis s.dreams)

/-- `generate_insights` as a state transformer: reads `self.dreams`,
assigns nothing. -/
def generate_insights_run (s : JournalState) : JournalState × String :=
  (s, generate_insights s.dreams)

/-- `search_dreams` as a state transformer: builds a fresh `results`
list, assigns nothing to `self.dreams`. -/
def search_dreams_run (query : String) (s : JournalState) :
    JournalState × List Dream :=
  (s, search_dreams query s.dreams)

/-- C2: on the empty record sequence, `get_analysis` returns the no-data
message from its guard, before any derived statistic — in particular any
ratio over the record count — is computed, so no division error can
arise. -/
theorem get_analysis_empty_guard :
    get_analysis [] = Except.error "No dreams recorded yet. Start by adding some dreams!" :=
  rfl

/-- C10: `get_analysis`, `generate_insights` and `search_dreams` are
read-only on the session state: the record collection after each run is
exactly the collection before (the recent-records ranking sorts a fresh
list, never the stored one). -/
theorem analysis_ops_readonly (s : JournalState) (q : String) :
    (get_analysis_run s).1 = s ∧ (generate_insights_run s).1 = s ∧
    (search_dreams_run q s).1 = s :=
  ⟨rfl, rfl, rfl⟩

/-- C8: the sentiment classifier returns positive exactly when the
polarity exceeds 1/10, negative exactly when it is below -1/10, neutral
on the closed band in between (both boundaries included), and neutral
whenever the external scorer fails. -/
theorem sentiment_thresholds (p : ℚ) :
    (analyze_sentiment (some p) = "positive" ↔ p > 1/10) ∧
    (analyze_sentiment (some p) = "negative" ↔ p < -(1/10)) ∧
    (-(1/10) ≤ p → p ≤ 1/10 → analyze_sentiment (some p) = "neutral") ∧
    analyze_sentiment none = "neutral" := by
  simp only [analyze_sentiment]
  split_ifs with h1 h2
  · exact ⟨iff_of_true rfl h1, iff_of_false (by decide) (by linarith),
      fun _ hb => absurd h1 (not_lt.mpr hb), trivial⟩
  · exact ⟨iff_of_false (by decide) h1, iff_of_true rfl h2,
      fun ha _ => absurd h2 (not_lt.mpr ha), trivial⟩
  · exact ⟨iff_of_false (by decide) h1, iff_of_false (by decide) h2,
      fun _ _ => rfl, trivial⟩

/-- Witness for C8 at the two exact boundaries: polarity 1/10 and a
failing scorer both classify as neutral. -/
theorem sentiment_thresholds_witness :
    analyze_sentiment (some (1/10)) = "neutral" ∧ analyze_sentiment none = "neutral" :=
  ⟨(sentiment_thresholds (1/10)).2.2.1 (by norm_num) le_rfl,
   (sentiment_thresholds 0).2.2.2⟩

/-- C6: when the title or the description strips to empty, `save_dream`
returns failure, shows the error naming the offending field (title
checked first), and leaves the record collection unchanged — nothing is
appended or persisted. -/
theorem save_dream_validation (now title description emotion : String)
    (lucid : Bool) (tags : String) (sq : Int) (pol : Option ℚ) (ds : List Dream)
    (h : pyStrip title = "" ∨ pyStrip description = "") :
    (save_dream now title description emotion lucid tags sq pol ds).ok = false ∧
    (save_dream now title description emotion lucid tags sq pol ds).dreams = ds ∧
    (save_dream now title description emotion lucid tags sq pol ds).errMsg =
      some (if pyStrip title = "" then "Please enter a dream title"
            else "Please enter a dream description") := by
  unfold save_dream
  by_cases ht : pyStrip title = ""
  · simp [ht]
  · have hd : pyStrip description = "" := h.resolve_left ht
    simp [ht, hd]

/-- Witness for C6: a whitespace title is rejected with the title error
and the empty collection stays empty. -/
theorem save_dream_validation_witness :
    (save_dream "2024-01-01 00:00:00" "  " "desc" "" false "" 5 none []).ok = false ∧
    (save_dream "2024-01-01 00:00:00" "  " "desc" "" false "" 5 none []).dreams = [] ∧
    (save_dream "2024-01-01 00:00:00" "  " "desc" "" false "" 5 none []).errMsg =
      some (if pyStrip "  " = "" then "Please enter a dream title"
            else "Please enter a dream description") :=
  save_dream_validation "2024-01-01 00:00:00" "  " "desc" "" false "" 5 none []
    (Or.inl (by decide))

/-- A record whose description contains a space, so that the
whitespace-only query `" "` matches it. -/
def exBlankQueryDream : Dream :=
  { id := 1, date := "2024-01-02 08:00:00", title := "Night", description := "night sky",
    emotion := "Peaceful", lucid := false, tags := ["calm"], sleep_quality := 7,
    sentiment := "neutral" }

/-- C5 counterexample: `" "` is blank (strips to empty) yet
`search_dreams` does not return the empty sequence on it — the guard
`if not query` only catches the exactly-empty string, and the blank query
then substring-matches any record containing a space. -/
theorem search_blank_query_counterexample :
    pyStrip " " = "" ∧
    search_dreams " " [exBlankQueryDream] = [exBlankQueryDream] ∧
    search_dreams " " [exBlankQueryDream] ≠ [] := by
  exact ⟨by decide, by decide, by decide⟩

/-- C5 amended: only the exactly-empty query short-circuits to the empty
result; a whitespace-only query is processed as an ordinary substring
query. -/
theorem search_empty_query_empty (ds : List Dream) : search_dreams "" ds = [] := by
  simp [search_dreams]

/-- Membership of the first branch's message in a two-rule `if/elif`
chain emitting at most one of two distinct messages. -/
theorem mem_first_ite {c1 c2 : Prop} [Decidable c1] [Decidable c2]
    {a b : String} (hab : a ≠ b) :
    a ∈ (if c1 then [a] else if c2 then [b] else []) ↔ c1 := by
  split_ifs with h1 h2
  · simp [h1]
  · simp [hab, h1]
  · simp [h1]

/-- Membership of the second branch's message in a two-rule `if/elif`
chain, when the two rule conditions are mutually exclusive. -/
theorem mem_second_ite {c1 c2 : Prop} [Decidable c1] [Decidable c2]
    {a b : String} (hba : b ≠ a) (hex : c2 → ¬ c1) :
    b ∈ (if c1 then [a] else if c2 then [b] else []) ↔ c2 := by
  split_ifs with h1 h2
  · simp only [List.mem_singleton, hba, false_iff]
    exact fun hc => hex hc h1
  · simp [h2]
  · simp [h2]

/-- A message distinct from both of a chain's messages never occurs in
that chain. -/
theorem not_mem_pair_ite {c1 c2 : Prop} [Decidable c1] [Decidable c2]
    {x a b : String} (ha : x ≠ a) (hb : x ≠ b) :
    x ∉ (if c1 then [a] else if c2 then [b] else []) := by
  split_ifs <;> simp [ha, hb]

/-- C1: the insight thresholds are strict — for a non-empty journal the
high-lucidity message appears iff `lucid_percentage > 20`, the
practice-suggestion message iff `lucid_percentage < 5` (so nothing on
the closed band `[5, 20]`, in particular at exactly 20), and likewise
the good-habits message iff `avg_sleep_quality > 7` (nothing at exactly
7) and the sleep-hygiene message iff `avg_sleep_quality < 5`. -/
theorem insight_thresholds_strict (ds : List Dream) (_hne : ds ≠ []) :
    (msgLucidHigh ∈ insightList ds ↔ lucid_percentage ds > 20) ∧
    (msgLucidLow ∈ insightList ds ↔ lucid_percentage ds < 5) ∧
    (msgQualityHigh ∈ insightList ds ↔ avg_sleep_quality ds > 7) ∧
    (msgQualityLow ∈ insightList ds ↔ avg_sleep_quality ds < 5) := by
  have main : ∀ x : String, x ∈ insightList ds ↔
      (x ∈ (if lucid_percentage ds > 20 then [msgLucidHigh]
            else if lucid_percentage ds < 5 then [msgLucidLow] else []) ∨
       x ∈ (if avg_sleep_quality ds < 5 then [msgQualityLow]
            else if avg_sleep_quality ds > 7 then [msgQualityHigh] else []) ∨
       x ∈ (if positive_pct ds > 60 then [msgPositive]
            else if positive_pct ds < 30 then [msgNegative] else [])) := by
    intro x
    unfold insightList
    simp [List.mem_append, or_assoc]
  refine ⟨?_, ?_, ?_, ?_⟩
  · rw [main]
    have hB : msgLucidHigh ∉ (if avg_sleep_quality ds < 5 then [msgQualityLow]
        else if avg_sleep_quality ds > 7 then [msgQualityHigh] else []) :=
      not_mem_pair_ite (by decide) (by decide)
    have hC : msgLucidHigh ∉ (if positive_pct ds > 60 then [msgPositive]
        else if positive_pct ds < 30 then [msgNegative] else []) :=
      not_mem_pair_ite (by decide) (by decide)
    simp only [hB, hC, or_false]
    exact mem_first_ite (by decide)
  · rw [main]
    have hB : msgLucidLow ∉ (if avg_sleep_quality ds < 5 then [msgQualityLow]
        else if avg_sleep_quality ds > 7 then [msgQualityHigh] else []) :=
      not_mem_pair_ite (by decide) (by decide)
    have hC : msgLucidLow ∉ (if positive_pct ds > 60 then [msgPositive]
        else if positive_pct ds < 30 then [msgNegative] else []) :=
      not_mem_pair_ite (by decide) (by decide)
    simp only [hB, hC, or_false]
    exact mem_second_ite (by decide) (by intro h5 h20; linarith)
  · rw [main]
    have hA : msgQualityHigh ∉ (if lucid_percentage ds > 20 then [msgLucidHigh]
        else if lucid_percentage ds < 5 then [msgLucidLow] else []) :=
      not_mem_pair_ite (by decide) (by decide)
    have hC : msgQualityHigh ∉ (if positive_pct ds > 60 then [msgPositive]
        else if positive_pct ds < 30 then [msgNegative] else []) :=
      not_mem_pair_ite (by decide) (by decide)
    simp only [hA, hC, or_false, false_or]
    exact mem_second_ite (by decide) (by intro h7 h5; linarith)
  · rw [main]
    have hA : msgQualityLow ∉ (if lucid_percentage ds > 20 then [msgLucidHigh]
        else if lucid_percentage ds < 5 then [msgLucidLow] else []) :=
      not_mem_pair_ite (by decide) (by decide)
    have hC : msgQualityLow ∉ (if positive_pct ds > 60 then [msgPositive]
        else if positive_pct ds < 30 then [msgNegative] else []) :=
      not_mem_pair_ite (by decide) (by decide)
    simp only [hA, hC, or_false, false_or]
    exact mem_first_ite (by decide)

/-- A fully lucid single-record journal, for the C1 witness: 100% lucid
rate fires the high-lucidity rule. -/
def exLucidDream : Dream :=
  { id := 1, date := "2024-01-03 07:00:00", title := "Aware", description := "knew it",
    emotion := "Excited", lucid := true, tags := [], sleep_quality := 8,
    sentiment := "neutral" }

/-- Witness for C1: with one lucid record the rate is 100 > 20 and the
high-lucidity message is emitted. -/
theorem insight_thresholds_strict_witness :
    msgLucidHigh ∈ insightList [exLucidDream] :=
  (insight_thresholds_strict [exLucidDream] (by simp)).1.mpr (by
    have h1 : ([exLucidDream].countP (fun d => d.lucid)) = 1 := rfl
    have h2 : ([exLucidDream] : List Dream).length = 1 := rfl
    unfold lucid_percentage
    rw [h1, h2]
    norm_num)

/-- C7: the insight engine is total over its rule outcomes — the empty
journal yields exactly the not-enough-data message (no rule evaluated),
and a non-empty journal on which none of the six rule conditions holds
yields exactly the keep-recording fallback. -/
theorem insights_totality :
    generate_insights [] = "Not enough data for insights." ∧
    ∀ ds : List Dream, ds ≠ [] →
      ¬ lucid_percentage ds > 20 → ¬ lucid_percentage ds < 5 →
      ¬ avg_sleep_quality ds < 5 → ¬ avg_sleep_quality ds > 7 →
      ¬ positive_pct ds > 60 → ¬ positive_pct ds < 30 →
      generate_insights ds = "Keep recording dreams to unlock more insights!" := by
  refine ⟨rfl, ?_⟩
  intro ds hne h1 h2 h3 h4 h5 h6
  have hnil : insightList ds = [] := by
    unfold insightList
    rw [if_neg h1, if_neg h2, if_neg h3, if_neg h4, if_neg h5, if_neg h6]
    rfl
  unfold generate_insights
  rw [if_neg hne, if_pos hnil]

/-- The append-accumulating search loop is `List.filter`. -/
theorem foldl_append_eq_filter (p : Dream → Bool) (l acc : List Dream) :
    l.foldl (fun r d => if p d then r ++ [d] else r) acc = acc ++ l.filter p := by
  induction l generalizing acc with
  | nil => simp
  | cons d t ih =>
    simp only [List.foldl_cons, List.filter_cons]
    by_cases hp : p d
    · simp [hp, ih]
    · simp [hp, ih]

/-- C4: for a non-empty, non-blank query, `search_dreams` returns exactly
the records whose lowercased title, description, or some lowercased tag
contains the lowercased query as a substring, in original collection
order (it is the filter of the collection by the match test, with no
ranking). -/
theorem search_matches_filter (query : String) (ds : List Dream)
    (hq : query ≠ "") (_hb : pyStrip query ≠ "") :
    search_dreams query ds = ds.filter (fun d => matchesQuery (lowerStr query) d) ∧
    ∀ d, d ∈ search_dreams query ds ↔ d ∈ ds ∧ matchesQuery (lowerStr query) d = true := by
  have h1 : search_dreams query ds = ds.filter (fun d => matchesQuery (lowerStr query) d) := by
    unfold search_dreams
    rw [if_neg hq]
    simpa using foldl_append_eq_filter (fun d => matchesQuery (lowerStr query) d) ds []
  exact ⟨h1, fun d => by simp [h1, List.mem_filter]⟩

/-- A record whose description contains "flying", for the C4 witness. -/
def exFlyDream : Dream :=
  { id := 1, date := "2024-01-04 06:30:00", title := "Hills", description := "I was flying over hills",
    emotion := "Happy", lucid := false, tags := ["adventure"], sleep_quality := 8,
    sentiment := "positive" }

/-- Witness for C4: the query "FLY" (non-empty, non-blank) matches a
record whose description contains "flying", case-insensitively. -/
theorem search_matches_filter_witness :
    search_dreams "FLY" [exFlyDream] = [exFlyDream] :=
  (search_matches_filter "FLY" [exFlyDream] (by decide) (by decide)).1.trans (by decide)

/-- `bump` increments exactly the bumped key's count. -/
theorem countValue_bump [DecidableEq α] (t x : α) (l : List (α × Nat)) :
    countValue t (bump x l) = countValue t l + if x = t then 1 else 0 := by
  induction l with
  | nil => simp [bump, countValue]
  | cons p l ih =>
    obtain ⟨s, n⟩ := p
    by_cases hsx : s = x
    · subst hsx
      by_cases hst : s = t <;> simp [bump, countValue, hst]
    · by_cases hst : s = t
      · have hxt : ¬ x = t := fun hh => hsx (hst.trans hh.symm)
        have htx : ¬ t = x := fun hh => hxt hh.symm
        simp [bump, countValue, hsx, hst, hxt, htx]
      · simp [bump, countValue, hsx, hst, ih]

/-- The count `Counter` stores for a key is the number of its occurrences
in the input list — duplicates inside one record's tag list each count. -/
theorem countValue_counterOf [DecidableEq α] (t : α) (xs : List α) :
    countValue t (counterOf xs) = xs.count t := by
  suffices h : ∀ acc : List (α × Nat),
      countValue t (xs.foldl (fun acc x => bump x acc) acc) = countValue t acc + xs.count t by
    simpa [counterOf, countValue] using h []
  induction xs with
  | nil => intro acc; simp
  | cons x l ih =>
    intro acc
    simp only [List.foldl_cons, List.count_cons, ih, countValue_bump]
    by_cases hxt : x = t <;> simp [hxt] <;> omega

/-- Inserting into the count-descending order and then filtering on any
fixed count value keeps the original relative order (stability of the
insertion step). -/
theorem filter_orderedInsert_count {α} (c : Nat) (a : α × Nat) (l : List (α × Nat)) :
    ((l.orderedInsert (fun x y => y.2 ≤ x.2) a).filter (fun p => p.2 == c)) =
      ((a :: l).filter (fun p => p.2 == c)) := by
  induction l with
  | nil => simp [List.orderedInsert]
  | cons b t ih =>
    simp only [List.orderedInsert]
    split_ifs with h
    · rfl
    · have hab : a.2 < b.2 := by omega
      by_cases hbc : b.2 = c
      · have hac : ¬ a.2 = c := by omega
        simp [List.filter_cons, hbc, hac, ih]
      · simp [List.filter_cons, hbc, ih]

/-- The count-descending sort of `most_common` is stable: filtering the
sorted list to the entries of any one count value gives those entries in
their first-seen order. -/
theorem filter_insertionSort_count {α} (c : Nat) (l : List (α × Nat)) :
    ((l.insertionSort (fun x y => y.2 ≤ x.2)).filter (fun p => p.2 == c)) =
      l.filter (fun p => p.2 == c) := by
  induction l with
  | nil => rfl
  | cons a t ih =>
    simp only [List.insertionSort]
    rw [filter_orderedInsert_count]
    simp [List.filter_cons, ih]

/-- C3: tag counting aggregates over the concatenation of all records'
tag lists with no per-record deduplication (the stored count is the
occurrence count, so a tag repeated in one record counts each time), and
the top-5 ranking keeps at most 5 entries, is ordered by count
descending, and breaks count ties by first-seen order (the sort is
stable over the first-seen-ordered counter). -/
theorem tag_ranking_spec (ds : List Dream) (t : String) (c : Nat) :
    countValue t (tag_counts ds) = (all_tags ds).count t ∧
    (common_tags ds).length ≤ 5 ∧
    (common_tags ds).Sorted (fun a b => b.2 ≤ a.2) ∧
    ((tag_counts ds).insertionSort (fun a b => b.2 ≤ a.2)).filter (fun p => p.2 == c) =
      (tag_counts ds).filter (fun p => p.2 == c) := by
  refine ⟨countValue_counterOf t (all_tags ds), ?_, ?_, filter_insertionSort_count c _⟩
  · simp only [common_tags, most_common]
    exact List.length_take_le 5 _
  · haveI : IsTotal (String × Nat) (fun a b => b.2 ≤ a.2) := ⟨fun a b => le_total b.2 a.2⟩
    haveI : IsTrans (String × Nat) (fun a b => b.2 ≤ a.2) :=
      ⟨fun x y z hxy hyz => le_trans hyz hxy⟩
    simp only [common_tags, most_common]
    exact List.Pairwise.sublist (List.take_sublist 5 _) (List.sorted_insertionSort _ _)

/-- The three-record journal with sleep qualities 5, 8, 3 from the
spec's numeric example. -/
def exAvgDreams : List Dream :=
  [{ id := 1, date := "2024-01-05 22:00:00", title := "a", description := "x",
     emotion := "Happy", lucid := false, tags := [], sleep_quality := 5, sentiment := "neutral" },
   { id := 2, date := "2024-01-06 22:00:00", title := "b", description := "y",
     emotion := "Happy", lucid := false, tags := [], sleep_quality := 8, sentiment := "neutral" },
   { id := 3, date := "2024-01-07 22:00:00", title := "c", description := "z",
     emotion := "Happy", lucid := false, tags := [], sleep_quality := 3, sentiment := "neutral" }]

/-- For qualities [5, 8, 3] the mean evaluates to 16/3. -/
theorem exAvgDreams_avg : avg_sleep_quality exAvgDreams = 16/3 := by
  have h1 : ((exAvgDreams.map (fun d => d.sleep_quality)).sum : ℤ) = 16 := rfl
  have h2 : exAvgDreams.length = 3 := rfl
  unfold avg_sleep_quality
  rw [h1, h2]
  norm_num

/-- One-decimal rendering of 16/3 is "5.3". -/
theorem fmt1_sixteen_thirds : fmt1 ((16 : ℚ)/3) = "5.3" := by
  have hr : round ((16/3 : ℚ) * 10) = 53 := by rw [round_eq]; norm_num
  rw [fmt1, hr]
  rfl

/-- C9 counterexample: for the quality sequence [5, 8, 3] the mean is
16/3 and the report renders it with one decimal as "5.3" — the report
line does not show "5.33". -/
theorem avg_display_counterexample :
    avg_sleep_quality exAvgDreams = 16/3 ∧
    fmt1 (avg_sleep_quality exAvgDreams) = "5.3" ∧
    avgQualityLine exAvgDreams = "• Average Sleep Quality: 5.3/10" ∧
    fmt1 (avg_sleep_quality exAvgDreams) ≠ "5.33" := by
  refine ⟨exAvgDreams_avg, ?_, ?_, ?_⟩
  · rw [exAvgDreams_avg]; exact fmt1_sixteen_thirds
  · unfold avgQualityLine
    rw [exAvgDreams_avg, fmt1_sixteen_thirds]
    decide
  · rw [exAvgDreams_avg, fmt1_sixteen_thirds]; decide

/-- C9 amended: `avg_sleep_quality` is the arithmetic mean of
`sleep_quality` (on a non-empty journal it times the record count gives
the quality sum), and for qualities [5, 8, 3] it is 16/3 — about 5.33 —
which the report shows rounded to one decimal as 5.3. -/
theorem avg_quality_mean_display (ds : List Dream) (h : ds ≠ []) :
    avg_sleep_quality ds * (ds.length : ℚ) =
      (((ds.map (fun d => d.sleep_quality)).sum : ℤ) : ℚ) ∧
    avg_sleep_quality exAvgDreams = 16/3 ∧
    avgQualityLine exAvgDreams = "• Average Sleep Quality: 5.3/10" := by
  refine ⟨?_, exAvgDreams_avg, ?_⟩
  · have hlen : (ds.length : ℚ) ≠ 0 :=
      Nat.cast_ne_zero.mpr (fun hh => h (List.length_eq_zero.mp hh))
    unfold avg_sleep_quality
    exact div_mul_cancel₀ _ hlen
  · unfold avgQualityLine
    rw [exAvgDreams_avg, fmt1_sixteen_thirds]
    decide

/-- Witness for the amended C9 at the [5, 8, 3] journal. -/
theorem avg_quality_mean_display_witness :
    avg_sleep_quality exAvgDreams * (exAvgDreams.length : ℚ) =
      (((exAvgDreams.map (fun d => d.sleep_quality)).sum : ℤ) : ℚ) ∧
    avg_sleep_quality exAvgDreams = 16/3 ∧
    avgQualityLine exAvgDreams = "• Average Sleep Quality: 5.3/10" :=
  avg_quality_mean_display exAvgDreams (by decide)

/-- Base record for the C7 witness journal. -/
def exKeepBase : Dream :=
  { id := 1, date := "2024-01-08 23:00:00", title := "t", description := "d",
    emotion := "Peaceful", lucid := false, tags := [], sleep_quality := 6,
    sentiment := "neutral" }

/-- Ten records: 1 lucid (10% ∈ [5,20]), all quality 6 (∈ [5,7]), five
positive (50% ∈ [30,60]) — no insight rule fires. -/
def exKeepDreams : List Dream :=
  [{ exKeepBase with lucid := true, sentiment := "positive" },
   { exKeepBase with sentiment := "positive" },
   { exKeepBase with sentiment := "positive" },
   { exKeepBase with sentiment := "positive" },
   { exKeepBase with sentiment := "positive" },
   exKeepBase, exKeepBase, exKeepBase, exKeepBase, exKeepBase]

/-- Witness for C7: on the ten-record journal where no rule condition
holds, the engine emits exactly the keep-recording fallback. -/
theorem insights_totality_witness :
    generate_insights exKeepDreams = "Keep recording dreams to unlock more insights!" := by
  have hl : lucid_percentage exKeepDreams = 10 := by
    have h1 : (exKeepDreams.countP (fun d => d.lucid)) = 1 := rfl
    have h2 : exKeepDreams.length = 10 := rfl
    unfold lucid_percentage
    rw [h1, h2]
    norm_num
  have ha : avg_sleep_quality exKeepDreams = 6 := by
    have h1 : ((exKeepDreams.map (fun d => d.sleep_quality)).sum : ℤ) = 60 := rfl
    have h2 : exKeepDreams.length = 10 := rfl
    unfold avg_sleep_quality
    rw [h1, h2]
    norm_num
  have hp : positive_pct exKeepDreams = 50 := by
    have h1 : ((exKeepDreams.map (fun d => d.sentiment)).count "positive") = 5 := rfl
    have h2 : exKeepDreams.length = 10 := rfl
    unfold positive_pct
    rw [h1, h2]
    norm_num
  exact insights_totality.2 exKeepDreams (by decide)
    (by rw [hl]; norm_num) (by rw [hl]; norm_num)
    (by rw [ha]; norm_num) (by rw [ha]; norm_num)
    (by rw [hp]; norm_num) (by rw [hp]; norm_num)
